import Mathlib

/-
Verification development for the go-pp pretty printer (package pp).

The Go source is shallowly embedded: reflect values become the inductive
type RVal over an explicit heap (cyclic and shared structures are
represented by heap addresses), the Printer's mutable render state becomes
the structure PState threaded through the render functions, and every
function that recurses through the value graph takes an explicit fuel
argument and returns an Option (none = the Go recursion has not finished
within that call depth, so divergence is "none for every fuel").

Modeling scope, stated once here:
- Signed integer kinds Int..Int64 are collapsed into one constructor vInt,
  and unsigned kinds Uint..Uint64 into vUint, because every switch in the
  source handles the members of each family through a single case body
  (or, for the unsigned family, through a single shared empty case body);
  Uintptr is kept separate because compareMapKeys gives it its own case.
- Float and complex kinds have no value constructors (their rendering goes
  through strconv shortest-round-trip formatting, which no claim
  exercises); the kind constants still appear in kind lists so that the
  translated atomicKinds and compareMapKeys keep the source's shape.
- The format hook (Printer.formatValue, default pp.FormatValue from
  values.go) is modeled as the constant-none function: FormatValue's type
  switch recognizes only time.Time, time.Duration, regexp.Regexp, big.*,
  and sync/atomic containers, none of which are representable in the
  modeled value universe, so the hook loop in printValue always exits on
  its first iteration with vs == nil and has no effect on the state.
- Go type names are not tracked; valueTypeString returns a placeholder
  derived from the kind. No theorem below observes a type annotation
  (their configurations either use PrintTypesNever or values for which
  printTypeForValue returns false).
- Labels (the variadic label arguments of Print/PrintTo and formatHeader)
  are not modeled; the modeled PrintTo is the label-free call, for which
  formatHeader returns the line prefix alone.
-/

namespace GoPP

/-- reflect.Kind, restricted to the kinds the embedding distinguishes.
kInt stands for the signed family Int..Int64 and kUint for the unsigned
family Uint..Uint64 (see the scope note at the top of the file). -/
inductive RKind where
  | kInvalid
  | kBool
  | kInt
  | kUint
  | kUintptr
  | kFloat
  | kComplex
  | kString
  | kArray
  | kSlice
  | kMap
  | kStruct
  | kPtr
  | kChan
  | kFuncK
  | kIface
  | kUnsafePtr
deriving DecidableEq, BEq

/-- A Go runtime value as seen by the reflect-based traversal. Reference
kinds (pointer, slice backing array, map backing store) carry a heap
address; none models the nil reference. vIface is a non-nil dynamic
wrapper around its inner value, vIface none models the nil interface
inside a larger value, and vInvalid models the kind-zero reflect value
obtained from reflect.ValueOf(nil). Struct fields are (name, exported,
value) triples. -/
inductive RVal where
  | vBool (b : Bool)
  | vInt (i : Int)
  | vUint (u : Nat)
  | vUintptr (u : Nat)
  | vStr (s : String)
  | vArray (elems : List RVal)
  | vSlice (ref : Option Nat)
  | vMap (ref : Option Nat)
  | vStruct (fields : List (String × Bool × RVal))
  | vPtr (ref : Option Nat)
  | vIface (inner : Option RVal)
  | vChan (addr : Nat)
  | vFuncV (addr : Nat)
  | vUnsafePtr (addr : Nat)
  | vInvalid

/-- A heap cell: the target of a pointer, the backing array of a slice, or
the backing store of a map (entries listed in the map's iteration order). -/
inductive HCell where
  | cellVal (v : RVal)
  | cellSeq (elems : List RVal)
  | cellMap (entries : List (RVal × RVal))

/-- The heap: a finite map from addresses to cells. -/
abbrev Heap := List (Nat × HCell)

def heapFind (h : Heap) (a : Nat) : Option HCell :=
  (h.find? (fun e => e.1 == a)).map (·.2)

/-- reflect.Value.Kind. -/
def RVal.kind : RVal → RKind
  | .vBool _ => .kBool
  | .vInt _ => .kInt
  | .vUint _ => .kUint
  | .vUintptr _ => .kUintptr
  | .vStr _ => .kString
  | .vArray _ => .kArray
  | .vSlice _ => .kSlice
  | .vMap _ => .kMap
  | .vStruct _ => .kStruct
  | .vPtr _ => .kPtr
  | .vIface _ => .kIface
  | .vChan _ => .kChan
  | .vFuncV _ => .kFuncK
  | .vUnsafePtr _ => .kUnsafePtr
  | .vInvalid => .kInvalid

/-- reflect.Value.IsNil for the kinds on which the source calls it. -/
def RVal.isNil : RVal → Bool
  | .vSlice r | .vMap r | .vPtr r => r.isNone
  | .vIface w => w.isNone
  | .vChan a | .vFuncV a | .vUnsafePtr a => a == 0
  | _ => false

/-- reflect.Value.Pointer: the identity address of a reference value. -/
def RVal.pointer : RVal → Nat
  | .vSlice (some a) | .vMap (some a) | .vPtr (some a) => a
  | .vChan a | .vFuncV a | .vUnsafePtr a => a
  | _ => 0

/-- reflect.Value.Elem for pointers and interfaces: the pointee (through
the heap) or the wrapped value; the invalid value for nil, matching
reflect's zero Value. -/
def ptrElem (h : Heap) : RVal → RVal
  | .vPtr (some a) =>
    match heapFind h a with
    | some (.cellVal w) => w
    | _ => .vInvalid
  | .vIface (some w) => w
  | _ => .vInvalid

/-- The elements of a slice, read through its backing-array address. -/
def sliceElems (h : Heap) : RVal → List RVal
  | .vSlice (some a) =>
    match heapFind h a with
    | some (.cellSeq es) => es
    | _ => []
  | _ => []

/-- The entries of a map in iteration order, read through its backing
address. -/
def mapEntries (h : Heap) : RVal → List (RVal × RVal)
  | .vMap (some a) =>
    match heapFind h a with
    | some (.cellMap es) => es
    | _ => []
  | _ => []

/-- The element list of a sequence value (array elements are stored
inline, slice elements live in the heap). -/
def seqElems (h : Heap) : RVal → List RVal
  | .vArray es => es
  | v => sliceElems h v

def structFields : RVal → List (String × Bool × RVal)
  | .vStruct fs => fs
  | _ => []

/-- The element loop shared by IsZero on arrays and structs: all
members zero. The callback z is the recursive IsZero at the remaining
fuel. -/
def isZeroListF (z : RVal → Option Bool) : List RVal → Option Bool
  | [] => some true
  | v :: vs => do
    let b ← z v
    if b then isZeroListF z vs else pure false

/-- reflect.Value.IsZero. Fuel-indexed because it recurses through array
elements and struct fields; none means the recursion did not finish
within the given depth. IsZero on the invalid value panics in Go; that
case is unreachable in every modeled flow and mapped to true. -/
def isZero : Nat → RVal → Option Bool
  | 0, _ => none
  | fuel+1, v =>
    match v with
    | .vBool b => some (!b)
    | .vInt i => some (i == 0)
    | .vUint u => some (u == 0)
    | .vUintptr u => some (u == 0)
    | .vStr s => some (s == "")
    | .vArray es => isZeroListF (fun w => isZero fuel w) es
    | .vSlice r => some r.isNone
    | .vMap r => some r.isNone
    | .vStruct fs => isZeroListF (fun w => isZero fuel w) (fs.map (·.2.2))
    | .vPtr r => some r.isNone
    | .vIface w => some w.isNone
    | .vChan a => some (a == 0)
    | .vFuncV a => some (a == 0)
    | .vUnsafePtr a => some (a == 0)
    | .vInvalid => some true
termination_by structural fuel => fuel

/-- pointerRef: per-render bookkeeping for one shared identity key
(sequence number n, printed flag). -/
structure PRef where
  n : Nat
  printed : Bool
deriving DecidableEq

/-- Printer.pointers: map from identity address to its pointerRef. Go's
map is modeled as an association list with unique keys, so its length is
len(p.pointers); the shared-mutable *pointerRef cells are modeled by
threading this map through the render state. -/
abbrev PtrMap := List (Nat × PRef)

def ptrFind (m : PtrMap) (a : Nat) : Option PRef :=
  (m.find? (fun e => e.1 == a)).map (·.2)

/-- Go map assignment p.pointers[a] = r: overwrites an existing entry,
otherwise appends. -/
def ptrInsert (m : PtrMap) (a : Nat) (r : PRef) : PtrMap :=
  if m.any (fun e => e.1 == a) then
    m.map (fun e => if e.1 == a then (a, r) else e)
  else m ++ [(a, r)]

/-- PrintTypes: the type-annotation policy enum. Go's zero value "" is
normalized to PrintTypesDefault by reset; the model's enum has no empty
value, so reset leaves this field unchanged. -/
inductive PrintTypes where
  | Default
  | Always
  | Never
deriving DecidableEq

/-- The Printer's configuration fields (those read during a render). The
output sink and the format hook are handled separately: the sink is a
parameter of PrintTo and the hook is modeled by FormatValue below. The
rune 0 used by reset as the unset marker for thousandsSeparator is
Char.ofNat 0. -/
structure Config where
  maxInlineColumn : Int
  indent : String
  linePrefix : String
  printTypes : PrintTypes
  hidePrivateFields : Bool
  thousandsSeparator : Char
deriving DecidableEq

/-- The Printer's mutable render state: the output buffer (as a list of
runes), the indentation level, the inline flag, and the shared pointers
map. -/
structure PState where
  buf : List Char
  level : Nat
  inline : Bool
  pointers : PtrMap
deriving DecidableEq

/-- p.printString / p.printBytes: append text to the buffer. -/
def printStr (s : PState) (t : String) : PState :=
  { s with buf := s.buf ++ t.data }

/-- p.printNewline. -/
def printNewline (s : PState) : PState :=
  { s with buf := s.buf ++ ['\n'] }

/-- p.printLineStart: the line prefix followed by level copies of the
indent unit. -/
def printLineStart (c : Config) (s : PState) : PState :=
  { s with buf := s.buf ++ c.linePrefix.data ++ (List.replicate s.level c.indent.data).flatten }

/-- p.pointerAnnotation: looks the address up in p.pointers; on the first
hit marks the ref printed and returns (true, "#N="), on every later hit
returns (false, "#N#"); (false, "") when the address is not registered.
The mutation of the shared pointerRef is modeled by returning the updated
map. -/
def pointerAnnotation (s : PState) (ptr : Nat) : PState × Bool × String :=
  match ptrFind s.pointers ptr with
  | none => (s, false, "")
  | some ref =>
    if !ref.printed then
      ({ s with pointers := ptrInsert s.pointers ptr { ref with printed := true } },
       true, "#" ++ toString ref.n ++ "=")
    else
      (s, false, "#" ++ toString ref.n ++ "#")

/-- p.currentMaxInlineColumn: maxInlineColumn - len(linePrefix) -
level*len(indent). Go's len on a string counts bytes, hence
utf8ByteSize; the result is an int and may be negative. -/
def currentMaxInlineColumn (c : Config) (s : PState) : Int :=
  c.maxInlineColumn - (c.linePrefix.utf8ByteSize : Int)
    - (s.level : Int) * (c.indent.utf8ByteSize : Int)

/-- p.addThousandsSeparator, translated exactly as written: cs2 is
allocated with make([]rune, len(s)) - length len(s) in bytes, filled with
zero runes - and then appended to, so the zero runes stay in the result;
the separator is inserted before every reversed index that is a positive
multiple of 3, including the index of a leading minus sign. -/
def addThousandsSeparator (sep : Char) (s : String) : String :=
  let cs2 : List Char := List.replicate s.utf8ByteSize (Char.ofNat 0)
  let cs := s.data.reverse
  let cs2 := cs2 ++ (cs.enum.map (fun ic =>
    if 0 < ic.1 && ic.1 % 3 == 0 then [sep, ic.2] else [ic.2])).flatten
  String.mk cs2.reverse

/-- p.printBooleanValue. -/
def printBooleanValue (s : PState) (b : Bool) : PState :=
  if b then printStr s "true" else printStr s "false"

/-- strconv.FormatInt(i, 10). -/
def formatInt (i : Int) : String := toString i

/-- strconv.FormatUint(u, 10). -/
def formatUint (u : Nat) : String := toString u

/-- p.printIntegerValue: decimal digits, grouped through
addThousandsSeparator unless the separator is the zero rune. -/
def printIntegerValue (c : Config) (s : PState) (i : Int) : PState :=
  let str := formatInt i
  if c.thousandsSeparator == Char.ofNat 0 then printStr s str
  else printStr s (addThousandsSeparator c.thousandsSeparator str)

/-- p.printUnsignedIntegerValue. -/
def printUnsignedIntegerValue (c : Config) (s : PState) (u : Nat) : PState :=
  let str := formatUint u
  if c.thousandsSeparator == Char.ofNat 0 then printStr s str
  else printStr s (addThousandsSeparator c.thousandsSeparator str)

/-- Models strconv.Quote for one character, covering printable ASCII and
the common escapes; the exotic escape classes of strconv are not
exercised by any theorem below. -/
def goQuoteChar (ch : Char) : List Char :=
  if ch == '"' then ['\\', '"']
  else if ch == '\\' then ['\\', '\\']
  else if ch == '\n' then ['\\', 'n']
  else if ch == '\t' then ['\\', 't']
  else if ch == '\r' then ['\\', 'r']
  else [ch]

/-- p.printStringValue: strconv.AppendQuote. -/
def printStringValue (s : PState) (str : String) : PState :=
  { s with buf := s.buf ++ ['"'] ++ (str.data.map goQuoteChar).flatten ++ ['"'] }

/-- p.printPointerAddressValue with uintptrSize = 8 (the modeled
platform): nil for address 0, otherwise fmt %#016x - 0x followed by the
hex digits zero-padded so the whole token is 16 characters wide. -/
def printPointerAddressValue (s : PState) (ptr : Nat) : PState :=
  if ptr == 0 then printStr s "nil"
  else
    let ds := Nat.toDigits 16 ptr
    printStr s ("0x" ++ String.mk (List.replicate (14 - ds.length) '0' ++ ds))

/-- p.compareMapKeys, translated with the source's exact case structure.
In the source, case Uint falls through into the case listing
Uint8..Uint64, whose body is empty, so every unsigned pair (other than
Uintptr, which has its own case containing the numeric comparison) leaves
the switch and returns the final 0. kFloat has no values in the modeled
universe, so it falls to the default arm. Keys of different kinds also
return 0. One consequence of collapsing the integer width kinds: in Go
two same-family keys of different widths (possible only in
interface-keyed maps) compare 0 because their kinds differ, which the
collapsed model cannot represent; no theorem below compares such a
pair. -/
def compareMapKeys (v1 v2 : RVal) : Int :=
  if v1.kind == v2.kind then
    match v1, v2 with
    | .vBool b1, .vBool b2 =>
      if !b1 && b2 then -1 else if b1 && !b2 then 1 else 0
    | .vInt i1, .vInt i2 =>
      if i1 < i2 then -1 else if i2 < i1 then 1 else 0
    | .vUint _, .vUint _ => 0
    | .vUintptr u1, .vUintptr u2 =>
      if u1 < u2 then -1 else if u2 < u1 then 1 else 0
    | .vStr s1, .vStr s2 =>
      if s1 < s2 then -1 else if s2 < s1 then 1 else 0
    | .vChan p1, .vChan p2 =>
      if p1 < p2 then -1 else if p2 < p1 then 1 else 0
    | .vPtr r1, .vPtr r2 =>
      let p1 := (RVal.vPtr r1).pointer
      let p2 := (RVal.vPtr r2).pointer
      if p1 < p2 then -1 else if p2 < p1 then 1 else 0
    | .vUnsafePtr p1, .vUnsafePtr p2 =>
      if p1 < p2 then -1 else if p2 < p1 then 1 else 0
    | _, _ => 0
  else 0

/-- slices.SortFunc. Go's sort runs insertion sort on short slices (and
is deterministic in general); the model is the standard stable insertion
sort, which agrees with Go's on every comparator outcome sequence used
below (elements comparing 0 keep their input order). cmp a b < 0 places a
before b. -/
def insertSorted (cmp : α → α → Int) (x : α) : List α → List α
  | [] => [x]
  | y :: ys => if cmp x y < 0 then x :: y :: ys else y :: insertSorted cmp x ys

def sortFunc (cmp : α → α → Int) (l : List α) : List α :=
  l.foldl (fun acc x => insertSorted cmp x acc) []

/-- The kind list of p.printTypeForValue's PrintTypesDefault branch. -/
def defaultTypeKinds : List RKind :=
  [.kSlice, .kArray, .kMap, .kStruct, .kChan, .kFuncK, .kIface]

/-- p.printTypeForValue: Always annotates everything, Never nothing;
Default annotates the composite kinds above plus pointers that are nil or
point to a pointer or interface. -/
def printTypeForValue (h : Heap) (c : Config) (v : RVal) : Bool :=
  match c.printTypes with
  | .Always => true
  | .Never => false
  | .Default =>
    if defaultTypeKinds.contains v.kind then true
    else if v.kind == .kPtr then
      v.isNil || (ptrElem h v).kind == .kPtr || (ptrElem h v).kind == .kIface
    else false

def kindName : RKind → String
  | .kInvalid => "invalid"
  | .kBool => "bool"
  | .kInt => "int"
  | .kUint => "uint"
  | .kUintptr => "uintptr"
  | .kFloat => "float"
  | .kComplex => "complex"
  | .kString => "string"
  | .kArray => "array"
  | .kSlice => "slice"
  | .kMap => "map"
  | .kStruct => "struct"
  | .kPtr => "ptr"
  | .kChan => "chan"
  | .kFuncK => "fn"
  | .kIface => "any"
  | .kUnsafePtr => "unsafeptr"

/-- p.valueTypeString: v.Type().String() with "interface \x7b\x7d"
rewritten to "any". Go type names are outside the modeled universe (see
the scope note); the placeholder below is derived from the kind and is
never observed by a theorem in this file. -/
def valueTypeString (v : RVal) : String := kindName v.kind

/-- pp.FormatValue (values.go), the default format hook: a type switch
over time.Time, time.Duration, regexp.Regexp, big.Int/Float/Rat and the
sync/atomic containers, none of which exist in the modeled value
universe, so the hook returns nil for every modeled value. -/
def FormatValue (_ : RVal) : Option RVal := none

/-- The atomicKinds list of p.atomicValue. kFloat and kComplex stand for
the Float32/Float64 and Complex64/Complex128 entries. -/
def atomicKinds : List RKind :=
  [.kBool, .kInt, .kUint, .kUintptr, .kFloat, .kComplex, .kString,
   .kFuncK, .kChan, .kUnsafePtr]

/-- p.atomicValue: interfaces and pointers recurse into Elem with no
cycle guard (fuel-indexed for exactly that reason); every other kind is
atomic iff it is in atomicKinds. -/
def atomicValue : Nat → Heap → RVal → Option Bool
  | 0, _, _ => none
  | fuel+1, h, v =>
    if v.kind == .kIface || v.kind == .kPtr then atomicValue fuel h (ptrElem h v)
    else some (atomicKinds.contains v.kind)

/-- The element loops of p.inlinableValue: false as soon as one element
is not atomic. The callback isAtom is p.atomicValue at the remaining
fuel. -/
def allAtomicF (isAtom : RVal → Option Bool) : List RVal → Option Bool
  | [] => some true
  | v :: vs => do
    let a ← isAtom v
    if a then allAtomicF isAtom vs else pure false

/-- p.inlinableValue: kind-zero values and atomic values are inlinable;
sequences, maps (their values) and structs are inlinable when all their
immediate children are atomic; everything else is not. -/
def inlinableValue : Nat → Heap → RVal → Option Bool
  | 0, _, _ => none
  | fuel+1, h, v =>
    if v.kind == .kInvalid then some true
    else do
      let a ← atomicValue fuel h v
      if a then pure true
      else
        match v with
        | .vArray es => allAtomicF (atomicValue fuel h) es
        | .vSlice _ => allAtomicF (atomicValue fuel h) (sliceElems h v)
        | .vMap _ => allAtomicF (atomicValue fuel h) ((mapEntries h v).map (·.2))
        | .vStruct fs => allAtomicF (atomicValue fuel h) (fs.map (·.2.2))
        | _ => pure false

/-- The state of the initPointers pre-pass: the pointers map under
construction, the visitedPointers set (as an insertion-ordered list), and
a ghost log recording the address at every execution of the assignment
p.pointers[ptr] = &pointerRef\x7b...\x7d. The log does not influence any
behavior; it only makes creation events observable to the theorems. -/
structure InitSt where
  pointers : PtrMap
  visited : List Nat
  creations : List Nat
deriving DecidableEq

/-- True for the kinds of initPointers' first switch (the ones the walk
descends into). -/
def initKindOk (k : RKind) : Bool :=
  match k with
  | .kSlice | .kArray | .kMap | .kStruct | .kPtr | .kIface => true
  | _ => false

/-- True for the kinds of initPointers' second switch (the reference
kinds whose identity address is tracked). -/
def refKind (k : RKind) : Bool :=
  match k with
  | .kSlice | .kMap | .kPtr => true
  | _ => false

/-- The child loop of initPointers' fn: fold fn (the callback rec) over
a list of child values. -/
def initFnListF (rec : RVal → InitSt → Option InitSt) : List RVal → InitSt → Option InitSt
  | [], st => pure st
  | v :: vs, st => do
    let st ← rec v st
    initFnListF rec vs st

/-- The recursive closure fn of p.initPointers. Zero values are skipped;
non-reference, non-container kinds return; for slices, maps and pointers
a nil value returns, an address already in visitedPointers triggers
p.pointers[ptr] = &pointerRef\x7bn: len(p.pointers) + 1\x7d (note: even
when the address already has a ref, which overwrites it) and returns, and
a fresh address is added to visitedPointers; the walk then descends into
elements, keys and values, fields, or the pointee. -/
def initFn : Nat → Heap → RVal → InitSt → Option InitSt
  | 0, _, _, _ => none
  | fuel+1, h, v, st => do
    let z ← isZero fuel v
    if z then pure st
    else if !initKindOk v.kind then pure st
    else if refKind v.kind && v.isNil then pure st
    else if refKind v.kind && st.visited.contains v.pointer then
      pure { st with
        pointers := ptrInsert st.pointers v.pointer ⟨st.pointers.length + 1, false⟩,
        creations := st.creations ++ [v.pointer] }
    else
      let st := if refKind v.kind then { st with visited := st.visited ++ [v.pointer] } else st
      match v with
      | .vSlice _ => initFnListF (fun w st => initFn fuel h w st) (sliceElems h v) st
      | .vArray es => initFnListF (fun w st => initFn fuel h w st) es st
      | .vMap _ =>
        initFnListF (fun w st => initFn fuel h w st)
          (((mapEntries h v).map (fun e => [e.1, e.2])).flatten) st
      | .vStruct fs => initFnListF (fun w st => initFn fuel h w st) (fs.map (·.2.2)) st
      | .vPtr _ => initFn fuel h (ptrElem h v) st
      | .vIface (some w) => initFn fuel h w st
      | _ => pure st
termination_by structural fuel => fuel

/-- p.initPointers: runs fn from a fresh pointers map and a fresh
visitedPointers set. -/
def initPointers (fuel : Nat) (h : Heap) (v : RVal) : Option InitSt :=
  initFn fuel h v ⟨[], [], []⟩

/-- p.printUnknownValue: the kind-zero reflect value (an uninitialized
interface passed to reflect.ValueOf) renders as nil; any other kind falls
back to a generic fmt %#v dump, which is unreachable for modeled values
because every modeled kind has its own dispatch case. -/
def printUnknownValue (s : PState) (v : RVal) : PState :=
  if v.kind == .kInvalid then printStr s "nil"
  else printStr s "<unknown>"

/-- The element loop of p.printSequenceValue (i is the running index, n
the element count): a comma after every element except an inline last
one, a space between inline elements, a newline after each block-mode
element. The callback rec is p.printValue. -/
def printSeqItemsF (c : Config) (rec : PState → RVal → Option PState) :
    PState → List RVal → Nat → Nat → Option PState
  | s, [], _, _ => pure s
  | s, ev :: rest, i, n => do
    let s := if !s.inline then printLineStart c s else s
    let s ← rec s ev
    let s := if !s.inline || decide (i < n - 1) then printStr s "," else s
    let s := if s.inline then (if decide (i < n - 1) then printStr s " " else s)
             else printNewline s
    printSeqItemsF c rec s rest (i+1) n

/-- p.printSequenceValue: nil slices render nil; non-nil slices first go
through pointerAnnotation (a later occurrence prints only the
backreference and returns); then bracketed elements, multi-line in block
mode. The callback rec is p.printValue. -/
def printSequenceValueF (h : Heap) (c : Config) (rec : PState → RVal → Option PState)
    (s : PState) (v : RVal) : Option PState :=
  if v.kind == .kSlice && v.isNil then pure (printStr s "nil")
  else
    let ann3 := if v.kind == .kSlice then pointerAnnotation s v.pointer else (s, false, "")
    let s := ann3.1
    let first := ann3.2.1
    let ann := ann3.2.2
    let s := if ann != "" then printStr s ann else s
    if ann != "" && !first then pure s
    else
      let s := printStr s "["
      let s := if !s.inline then printNewline s else s
      let s := { s with level := s.level + 1 }
      let es := seqElems h v
      do
        let s ← printSeqItemsF c rec s es 0 es.length
        let s := { s with level := s.level - 1 }
        let s := if !s.inline then printLineStart c s else s
        pure (printStr s "]")

/-- The entry loop of p.printMapValue. The callback rec is p.printValue. -/
def printMapItemsF (c : Config) (rec : PState → RVal → Option PState) :
    PState → List (RVal × RVal) → Nat → Nat → Option PState
  | s, [], _, _ => pure s
  | s, kv :: rest, i, n => do
    let s := if !s.inline then printLineStart c s else s
    let s ← rec s kv.1
    let s := printStr s ": "
    let s ← rec s kv.2
    let s := if !s.inline || decide (i < n - 1) then printStr s "," else s
    let s := if s.inline then (if decide (i < n - 1) then printStr s " " else s)
             else printNewline s
    printMapItemsF c rec s rest (i+1) n

/-- p.printMapValue: nil maps render nil, empty maps render empty braces;
otherwise pointerAnnotation, then the keys are sorted with
p.compareMapKeys and the key: value pairs are printed. The source sorts
v.MapKeys() and looks each value up with v.MapIndex; the model sorts the
(key, value) entries with the comparator applied to the keys, which is
the same permutation because map keys are distinct and the sort consults
keys only. The callback rec is p.printValue. -/
def printMapValueF (h : Heap) (c : Config) (rec : PState → RVal → Option PState)
    (s : PState) (v : RVal) : Option PState :=
  if v.isNil then pure (printStr s "nil")
  else
    let entries := mapEntries h v
    if entries.length == 0 then pure (printStr s "\x7b\x7d")
    else
      let ann3 := pointerAnnotation s v.pointer
      let s := ann3.1
      let first := ann3.2.1
      let ann := ann3.2.2
      let s := if ann != "" then printStr s ann else s
      if ann != "" && !first then pure s
      else
        let sorted := sortFunc (fun a b => compareMapKeys a.1 b.1) entries
        let s := printStr s "\x7b"
        let s := if !s.inline then printNewline s else s
        let s := { s with level := s.level + 1 }
        do
          let s ← printMapItemsF c rec s sorted 0 sorted.length
          let s := { s with level := s.level - 1 }
          let s := if !s.inline then printLineStart c s else s
          pure (printStr s "\x7d")

/-- The field loop of p.printStructValue: an unexported field is skipped
when hidePrivateFields is set, but the running index i still advances (as
Go's continue does), so the comma logic keeps using the original field
positions. The callback rec is p.printValue. -/
def printStructFieldsF (c : Config) (rec : PState → RVal → Option PState) :
    PState → List (String × Bool × RVal) → Nat → Nat → Option PState
  | s, [], _, _ => pure s
  | s, f :: rest, i, n =>
    if !f.2.1 && c.hidePrivateFields then printStructFieldsF c rec s rest (i+1) n
    else do
      let s := if !s.inline then printLineStart c s else s
      let s := printStr s f.1
      let s := printStr s ": "
      let s ← rec s f.2.2
      let s := if !s.inline || decide (i < n - 1) then printStr s "," else s
      let s := if s.inline then (if decide (i < n - 1) then printStr s " " else s)
               else printNewline s
      printStructFieldsF c rec s rest (i+1) n

/-- p.printStructValue: zero fields render empty braces; otherwise braced
Field: value lines. The callback rec is p.printValue. -/
def printStructValueF (c : Config) (rec : PState → RVal → Option PState)
    (s : PState) (v : RVal) : Option PState :=
  let fs := structFields v
  if fs.length == 0 then pure (printStr s "\x7b\x7d")
  else
    let s := printStr s "\x7b"
    let s := if !s.inline then printNewline s else s
    let s := { s with level := s.level + 1 }
    do
      let s ← printStructFieldsF c rec s fs 0 fs.length
      let s := { s with level := s.level - 1 }
      let s := if !s.inline then printLineStart c s else s
      pure (printStr s "\x7d")

/-- p.printPointerValue: nil pointers render nil (the IsZero callback iz
is the fuel-indexed isZero); otherwise pointerAnnotation (a later
occurrence prints only the backreference and returns without touching the
pointee), then an ampersand and the rendered pointee. The callback rec is
p.printValue. -/
def printPointerValueF (h : Heap) (iz : RVal → Option Bool)
    (rec : PState → RVal → Option PState) (s : PState) (v : RVal) : Option PState := do
  let z ← iz v
  if z then pure (printStr s "nil")
  else
    let ann3 := pointerAnnotation s v.pointer
    let s := ann3.1
    let first := ann3.2.1
    let ann := ann3.2.2
    let s := if ann != "" then printStr s ann else s
    if ann != "" && !first then pure s
    else
      let s := printStr s "&"
      rec s (ptrElem h v)

/-- p.printInterfaceValue: the nil interface renders nil, otherwise the
wrapped value is rendered transparently. -/
def printInterfaceValueF (h : Heap) (iz : RVal → Option Bool)
    (rec : PState → RVal → Option PState) (s : PState) (v : RVal) : Option PState := do
  let z ← iz v
  if z then pure (printStr s "nil")
  else rec s (ptrElem h v)

/-- The remainder of p.printValue after the inline attempt: compute the
type-annotation decision, run the format-hook loop (FormatValue returns
nil on every modeled value, so the loop breaks on its first iteration
with no effect and the RawString branch is unreachable), optionally open
the type annotation, dispatch on the kind, optionally close the
annotation. The callback rec is p.printValue at the remaining fuel, iz
the matching isZero. -/
def printValueCoreF (h : Heap) (c : Config) (iz : RVal → Option Bool)
    (rec : PState → RVal → Option PState) (s : PState) (v : RVal) : Option PState := do
  let pt := printTypeForValue h c v
  let s := if pt then printStr s (valueTypeString v ++ "(") else s
  let s ← match v with
    | .vBool b => pure (printBooleanValue s b)
    | .vInt i => pure (printIntegerValue c s i)
    | .vUint u => pure (printUnsignedIntegerValue c s u)
    | .vUintptr u => pure (printPointerAddressValue s u)
    | .vStr str => pure (printStringValue s str)
    | .vArray _ => printSequenceValueF h c rec s v
    | .vSlice _ => printSequenceValueF h c rec s v
    | .vMap _ => printMapValueF h c rec s v
    | .vStruct _ => printStructValueF c rec s v
    | .vFuncV a => pure (printPointerAddressValue s a)
    | .vChan a => pure (printPointerAddressValue s a)
    | .vIface _ => printInterfaceValueF h iz rec s v
    | .vPtr _ => printPointerValueF h iz rec s v
    | .vUnsafePtr a => pure (printPointerAddressValue s a)
    | .vInvalid => pure (printUnknownValue s v)
  pure (if pt then printStr s ")" else s)

/-- p.printValue. First the inline attempt: if the value is inlinable and
the printer is not already in inline mode, a clone (empty buffer, same
level, the same shared pointers map, inline set) renders a trial; when
the trial's rune count fits currentMaxInlineColumn the trial buffer is
appended verbatim and the call returns, otherwise the trial buffer is
dropped and control falls through to the per-kind dispatch
(printValueCoreF). Because the clone shares the pointers map and its
pointerRef cells, every pointerAnnotation mutation made during the trial
persists even when the trial is discarded. -/
def printValue : Nat → Heap → Config → PState → RVal → Option PState
  | 0, _, _, _, _ => none
  | fuel+1, h, c, s, v => do
    let inl ← inlinableValue fuel h v
    if inl && !s.inline then
      let strial ← printValue fuel h c { s with buf := [], inline := true } v
      let s := { s with pointers := strial.pointers }
      if (strial.buf.length : Int) ≤ currentMaxInlineColumn c s then
        pure { s with buf := s.buf ++ strial.buf }
      else
        printValueCoreF h c (isZero fuel) (fun s2 v2 => printValue fuel h c s2 v2) s v
    else
      printValueCoreF h c (isZero fuel) (fun s2 v2 => printValue fuel h c s2 v2) s v
termination_by structural fuel => fuel

/-- p.printValue's fall-through path (everything after the inline
attempt) under the given fuel: the claim-facing name for
printValueCoreF tied to printValue. -/
def printValueCore (fuel : Nat) (h : Heap) (c : Config) (s : PState) (v : RVal) :
    Option PState :=
  printValueCoreF h c (isZero fuel) (fun s2 v2 => printValue fuel h c s2 v2) s v

/-- p.printSequenceValue tied to printValue (claim-facing name). -/
def printSequenceValue (fuel : Nat) (h : Heap) (c : Config) (s : PState) (v : RVal) :
    Option PState :=
  printSequenceValueF h c (fun s2 v2 => printValue fuel h c s2 v2) s v

/-- p.printMapValue tied to printValue (claim-facing name). -/
def printMapValue (fuel : Nat) (h : Heap) (c : Config) (s : PState) (v : RVal) :
    Option PState :=
  printMapValueF h c (fun s2 v2 => printValue fuel h c s2 v2) s v

/-- p.printStructValue tied to printValue (claim-facing name). -/
def printStructValue (fuel : Nat) (h : Heap) (c : Config) (s : PState) (v : RVal) :
    Option PState :=
  printStructValueF c (fun s2 v2 => printValue fuel h c s2 v2) s v

/-- p.printPointerValue tied to printValue (claim-facing name). -/
def printPointerValue (fuel : Nat) (h : Heap) (c : Config) (s : PState) (v : RVal) :
    Option PState :=
  printPointerValueF h (isZero fuel) (fun s2 v2 => printValue fuel h c s2 v2) s v

/-- p.printInterfaceValue tied to printValue (claim-facing name). -/
def printInterfaceValue (fuel : Nat) (h : Heap) (c : Config) (s : PState) (v : RVal) :
    Option PState :=
  printInterfaceValueF h (isZero fuel) (fun s2 v2 => printValue fuel h c s2 v2) s v

/-- p.reset, restricted to the configuration fields the model carries:
every zero-valued field is replaced by its package default
(DefaultMaxInlineColumn = 80, DefaultIndent = two spaces,
DefaultThousandsSeparator = the underscore rune); in particular a
thousandsSeparator equal to the zero rune is replaced by the underscore.
The defaultOutput and formatValue fields are handled outside the model
(the sink is a PrintTo parameter, the hook is FormatValue), and
printTypes needs no normalization because the modeled enum has no empty
value. -/
def reset (c : Config) : Config :=
  { maxInlineColumn := if c.maxInlineColumn == 0 then 80 else c.maxInlineColumn
    indent := if c.indent == "" then "  " else c.indent
    linePrefix := c.linePrefix
    printTypes := c.printTypes
    hidePrivateFields := c.hidePrivateFields
    thousandsSeparator :=
      if c.thousandsSeparator == Char.ofNat 0 then '_' else c.thousandsSeparator }

/-- The pointer-table part of p.reset: initPointers runs only when the
argument interface is non-nil (vInvalid models reflect.ValueOf(nil)); for
a nil argument the printer keeps whatever pointers map it already had. -/
def resetPointers (fuel : Nat) (h : Heap) (v : RVal) (pts : PtrMap) : Option PtrMap :=
  match v with
  | .vInvalid => some pts
  | _ => (initPointers fuel h v).map (·.pointers)

/-- p.PrintTo for a label-free call: reset the configuration and the
pointer table, render the whole value into the in-memory buffer, build
the full output text (formatHeader with no label is the line prefix,
then the buffer, then a newline), hand that complete text to the sink in
one write, and return the sink's error verbatim. The sink is modeled as
a function from the written text to an optional error. The result is
(text, returned error, configuration after the call). -/
def PrintTo (fuel : Nat) (h : Heap) (c0 : Config) (pts0 : PtrMap) (v : RVal)
    (sink : String → Option String) : Option (String × Option String × Config) :=
  let c := reset c0
  match resetPointers fuel h v pts0 with
  | none => none
  | some pts =>
    match printValue fuel h c { buf := [], level := 0, inline := false, pointers := pts } v with
    | none => none
    | some s =>
      let text := c.linePrefix ++ String.mk s.buf ++ "\n"
      some (text, sink text, c)

/-! Concrete inputs used by the theorems. -/

/-- Whether pat occurs at the head of the list (used to count how often
an annotation token appears in a rendered output). -/
def headMatches : List Char → List Char → Bool
  | [], _ => true
  | _ :: _, [] => false
  | a :: as, b :: bs => a == b && headMatches as bs

/-- The number of positions at which pat occurs in the list. -/
def countOccs (pat : List Char) : List Char → Nat
  | [] => 0
  | c :: rest => (if headMatches pat (c :: rest) then 1 else 0) + countOccs pat rest

/-- The heap of the Go program `var a any; a = &a`: address 7 holds the
interface variable a, whose dynamic value is the *any pointer back to
address 7. reflect.ValueOf(a) unwraps the interface and yields that
pointer. -/
def selfRefHeap : Heap := [(7, .cellVal (.vIface (some (.vPtr (some 7)))))]

/-- The value passed to Print in that program: the *any pointer to
address 7. -/
def selfRefVal : RVal := .vPtr (some 7)

/-- Heap for the shared-pointer example: address 1 holds the int 5. -/
def sharedHeap : Heap := [(1, .cellVal (.vInt 5))]

/-- struct\x7bA, B *int\x7d with both fields pointing at address 1. -/
def sharedVal : RVal :=
  .vStruct [("A", true, .vPtr (some 1)), ("B", true, .vPtr (some 1))]

/-- A printer configured with SetMaxInlineColumn(1) and
SetPrintTypes(PrintTypesNever); the remaining fields are fresh (reset
fills indent and the thousands separator with their defaults). -/
def cInline1 : Config := ⟨1, "", "", .Never, false, Char.ofNat 0⟩

/-- map[uint]int\x7b1: 10, 2: 20\x7d at address 3, in one iteration
order. -/
def mapHeapA : Heap := [(3, .cellMap [(.vUint 1, .vInt 10), (.vUint 2, .vInt 20)])]

/-- The same map with the opposite iteration order. -/
def mapHeapB : Heap := [(3, .cellMap [(.vUint 2, .vInt 20), (.vUint 1, .vInt 10)])]

/-- A printer with PrintTypesNever and otherwise default configuration. -/
def cMapNever : Config := ⟨80, "  ", "", .Never, false, '_'⟩

/-- A fully default configuration (what reset produces for a fresh
Printer). -/
def cSep : Config := ⟨80, "  ", "", .Default, false, '_'⟩

/-- A fresh Printer's configuration: every field zero-valued, as after
SetThousandsSeparator(0) on a new Printer. -/
def cZeroSep : Config := ⟨0, "", "", .Default, false, Char.ofNat 0⟩

/-- Heap for the recreation example: two ints at addresses 1 and 2. -/
def tripleHeap : Heap := [(1, .cellVal (.vInt 5)), (2, .cellVal (.vInt 6))]

/-- struct\x7bA, B, C, D, E *int\x7d with A, B, C pointing at address 1
and D, E at address 2: address 1 is encountered three times by the
pre-pass and address 2 twice. -/
def tripleVal : RVal :=
  .vStruct [("A", true, .vPtr (some 1)), ("B", true, .vPtr (some 1)),
    ("C", true, .vPtr (some 1)), ("D", true, .vPtr (some 2)),
    ("E", true, .vPtr (some 2))]

/-- Configuration for the inline-boundary witness: max inline column 13
(exactly the trial width of the witness value), PrintTypesNever. -/
def cW : Config := ⟨13, "", "", .Never, false, '_'⟩

/-- The initial render state. -/
def s0W : PState := ⟨[], 0, false, []⟩

/-- The trial state produced by the witness trial render. -/
def strialW : PState := ⟨"[true, false]".data, 0, true, []⟩

/-- The boundary-witness value: a sequence of two booleans. -/
def vW : RVal := .vArray [.vBool true, .vBool false]

/-- The same configuration as cW with the column budget one below the
witness value's trial width. -/
def cW12 : Config := ⟨12, "", "", .Never, false, '_'⟩

/-! Theorems. -/

/-- atomicValue alternates between the self-referential pointer and the
interface wrapping it, so it exhausts any fuel. -/
lemma c1_atomic_pair (fuel : Nat) :
    atomicValue fuel selfRefHeap selfRefVal = none ∧
      atomicValue fuel selfRefHeap (RVal.vIface (some selfRefVal)) = none := by
  induction fuel with
  | zero => exact ⟨rfl, rfl⟩
  | succ f ih =>
    constructor
    · rw [atomicValue]
      simpa [selfRefVal, selfRefHeap, ptrElem, heapFind, RVal.kind] using ih.2
    · rw [atomicValue]
      simpa [selfRefVal, selfRefHeap, ptrElem, RVal.kind] using ih.1

/-- inlinableValue inherits the divergence of atomicValue on the
self-referential pointer. -/
lemma c1_inlinable_none (fuel : Nat) :
    inlinableValue fuel selfRefHeap selfRefVal = none := by
  cases fuel with
  | zero => rfl
  | succ f =>
    have h := (c1_atomic_pair f).1
    simp only [selfRefVal] at h ⊢
    rw [inlinableValue, h]
    rfl
    all_goals (intro _ hx; cases hx)

/-- printValue starts with the inlinability check, so it inherits the
divergence for every state. -/
lemma c1_printValue_none (fuel : Nat) (c : Config) (s : PState) :
    printValue fuel selfRefHeap c s selfRefVal = none := by
  cases fuel with
  | zero => rfl
  | succ f =>
    rw [printValue]
    simp [c1_inlinable_none f]

/-- Claim C1: a render call terminates on every value, including every
cyclic structure; in particular initPointers, atomicValue/inlinableValue
and the render pass terminate on cyclic graphs. This is refuted by the
program `var a any; a = &a; Print(a)`: atomicValue recurses from the
pointer to its interface pointee and back with no cycle guard, so
atomicValue, inlinableValue and the whole PrintTo pipeline return none at
every fuel - the Go recursion never terminates (it overflows the stack),
although the cycle-handling machinery elsewhere shows the claim is the
intended behavior. -/
theorem C1_cyclic_inline_check_diverges :
    (∀ fuel, atomicValue fuel selfRefHeap selfRefVal = none) ∧
    (∀ fuel, inlinableValue fuel selfRefHeap selfRefVal = none) ∧
    (∀ fuel c pts sink, PrintTo fuel selfRefHeap c pts selfRefVal sink = none) := by
  refine ⟨fun fuel => (c1_atomic_pair fuel).1, c1_inlinable_none, ?_⟩
  intro fuel c pts sink
  unfold PrintTo
  cases hre : resetPointers fuel selfRefHeap selfRefVal pts with
  | none => simp [hre]
  | some pts2 => simp [hre, c1_printValue_none]

/-- Claim C2: every shared or cyclic pointer is expanded fully exactly
once, prefixed with #N= at its first rendered occurrence, and every
later occurrence renders only #N#. Refuted: with max inline column 1 and
struct\x7bA, B *int\x7d whose fields share one pointee, the discarded
inline trial marks the shared pointerRef printed through the
clone-shared pointers map, so the committed block output contains #1#
twice and #1= never, and the pointee is never expanded. -/
theorem C2_discarded_trial_suppresses_expansion :
    (PrintTo 16 sharedHeap cInline1 [] sharedVal (fun _ => none)).map (·.1)
      = some "\x7b\n  A: #1#,\n  B: #1#,\n\x7d\n" ∧
    countOccs "#1=".data "\x7b\n  A: #1#,\n  B: #1#,\n\x7d\n".data = 0 ∧
    countOccs "#1#".data "\x7b\n  A: #1#,\n  B: #1#,\n\x7d\n".data = 2 := by
  refine ⟨by decide, by decide, by decide⟩

/-- Claim C3: the rendered key order of a map is a function of the key
set alone, for all key kinds including unsigned integers. Refuted: the
same map[uint]int\x7b1: 10, 2: 20\x7d rendered from two different
iteration orders produces two different outputs, because all unsigned
keys compare equal under compareMapKeys (see C4) and the sort then
preserves the iteration order. -/
theorem C3_map_order_depends_on_iteration_order :
    (mapEntries mapHeapA (.vMap (some 3))).map (·.1) = [.vUint 1, .vUint 2] ∧
    (mapEntries mapHeapB (.vMap (some 3))).map (·.1) = [.vUint 2, .vUint 1] ∧
    (PrintTo 16 mapHeapA cMapNever [] (.vMap (some 3)) (fun _ => none)).map (·.1)
      = some "\x7b1\x00: 10\x00\x00, 2\x00: 20\x00\x00\x7d\n" ∧
    (PrintTo 16 mapHeapB cMapNever [] (.vMap (some 3)) (fun _ => none)).map (·.1)
      = some "\x7b2\x00: 20\x00\x00, 1\x00: 10\x00\x00\x7d\n" ∧
    (PrintTo 16 mapHeapA cMapNever [] (.vMap (some 3)) (fun _ => none)).map (·.1)
      ≠ (PrintTo 16 mapHeapB cMapNever [] (.vMap (some 3)) (fun _ => none)).map (·.1) := by
  refine ⟨rfl, rfl, by decide, by decide, by decide⟩

/-- Claim C4: compareMapKeys orders every same-kind key pair, with
unsigned integers ordered numerically. Refuted: unsigned keys compare
equal (the source's case for Uint8..Uint64 has an empty body, so the
unsigned comparison code is reachable only for Uintptr); the signed,
Uintptr and boolean cases do order numerically, showing the slip is
specific to the unsigned family. -/
theorem C4_unsigned_keys_compare_equal :
    compareMapKeys (.vUint 1) (.vUint 2) = 0 ∧
    compareMapKeys (.vUint 2) (.vUint 1) = 0 ∧
    compareMapKeys (.vUintptr 1) (.vUintptr 2) = -1 ∧
    compareMapKeys (.vInt 1) (.vInt 2) = -1 ∧
    compareMapKeys (.vBool false) (.vBool true) = -1 := by
  refine ⟨by decide, by decide, by decide, by decide, by decide⟩

/-- Claim C5: for an inline-eligible value rendered outside inline mode,
the trial buffer is committed verbatim exactly when its rune count is at
most the column budget (max inline column minus line-prefix length minus
level times indent length); otherwise the trial buffer is discarded and
the block path (printValueCore) produces the output. -/
theorem C5_inline_budget_decision (fuel : Nat) (h : Heap) (c : Config) (s : PState)
    (v : RVal) (strial : PState)
    (hinl : inlinableValue fuel h v = some true)
    (hblock : s.inline = false)
    (htrial : printValue fuel h c { s with buf := [], inline := true } v = some strial) :
    printValue (fuel+1) h c s v =
      if (strial.buf.length : Int) ≤ currentMaxInlineColumn c s then
        some { s with buf := s.buf ++ strial.buf, pointers := strial.pointers }
      else printValueCore fuel h c { s with pointers := strial.pointers } v := by
  rw [printValue, hinl, hblock]
  simp only [Option.some_bind, Bool.not_false, Bool.and_true, if_true, htrial, printValueCore]
  rfl

/-- Witness for C5 at the spec's boundary: the witness value's trial
renders as the 13-rune text of two booleans; with budget exactly 13 the
trial is committed verbatim, with budget 12 the rendering falls back to
the block path. -/
theorem C5_boundary_witness :
    printValue 9 [] cW s0W vW = some ⟨"[true, false]".data, 0, false, []⟩ ∧
    printValue 9 [] cW12 s0W vW = printValueCore 8 [] cW12 s0W vW := by
  constructor
  · have h := C5_inline_budget_decision 8 [] cW s0W vW strialW (by decide) rfl (by decide)
    rw [h]
    decide
  · have h := C5_inline_budget_decision 8 [] cW12 s0W vW strialW (by decide) rfl (by decide)
    rw [h]
    decide

/-- Claim C6: with a thousands separator configured, an integer renders
as exactly its decimal digits grouped in threes from the right, the sign
never separated from the first digit, and nothing else. Refuted at
-123456: the grouped text is "-_123_456" (the separator lands between
the sign and the first digit because the reversed index of the sign is a
multiple of 3) followed by seven zero runes left over from the
make([]rune, len(s)) allocation that the loop then appends after. -/
theorem C6_grouping_corrupts_output :
    addThousandsSeparator '_' "-123456"
      = "-_123_456" ++ String.mk (List.replicate 7 (Char.ofNat 0)) ∧
    (printIntegerValue cSep ⟨[], 0, false, []⟩ (-123456)).buf
      = "-_123_456".data ++ List.replicate 7 (Char.ofNat 0) ∧
    "-_123_456".data ++ List.replicate 7 (Char.ofNat 0) ≠ "-123_456".data := by
  refine ⟨by decide, by decide, by decide⟩

/-- Claim C7: SetThousandsSeparator(0) disables grouping. Refuted: reset
treats the zero separator as unset and replaces it with the default
underscore, so a render performed after SetThousandsSeparator(0) still
groups (the no-separator branch of printIntegerValue is unreachable
after reset). -/
theorem C7_zero_separator_still_groups :
    (reset cZeroSep).thousandsSeparator = '_' ∧
    (PrintTo 16 [] cZeroSep [] (.vInt 1234567) (fun _ => none)).map (·.1)
      = some ("1_234_567" ++ String.mk (List.replicate 7 (Char.ofNat 0)) ++ "\n") ∧
    (PrintTo 16 [] cZeroSep [] (.vInt 1234567) (fun _ => none)).map (·.1)
      ≠ some "1234567\n" := by
  refine ⟨by decide, by decide, by decide⟩

/-- Claim C8: each identity key's PointerRef is created at most once per
render, never recreated or renumbered, with a 1-based immutable sequence
number. Refuted: on a struct whose fields make the pre-pass encounter
address 1 three times and address 2 twice, the creation log shows the
ref for address 1 is created twice (the second-visit branch overwrites
unconditionally), and both addresses end with the same sequence number
2, so distinct shared keys collide on one backreference label. -/
theorem C8_pointerRef_recreated :
    (initPointers 16 tripleHeap tripleVal).map (·.creations) = some [1, 1, 2] ∧
    (initPointers 16 tripleHeap tripleVal).map (·.pointers)
      = some [(1, ⟨2, false⟩), (2, ⟨2, false⟩)] := by
  refine ⟨by decide, by decide⟩

/-- Claim C9: a print call computes the whole rendered text before the
single sink write, returns exactly the write's error, and neither the
text nor the resulting configuration depends on the write's outcome. -/
theorem C9_render_before_single_write (fuel : Nat) (h : Heap) (c : Config)
    (pts : PtrMap) (v : RVal) (sink : String → Option String)
    (t : String) (e : Option String) (c' : Config)
    (hrun : PrintTo fuel h c pts v sink = some (t, e, c')) :
    e = sink t ∧ c' = reset c ∧
    ∀ sink2 : String → Option String,
      PrintTo fuel h c pts v sink2 = some (t, sink2 t, c') := by
  unfold PrintTo at hrun ⊢
  cases hre : resetPointers fuel h v pts with
  | none => simp only [hre] at hrun; cases hrun
  | some pts2 =>
    simp only [hre] at hrun ⊢
    cases hpv : printValue fuel h (reset c) ⟨[], 0, false, pts2⟩ v with
    | none => simp only [hpv] at hrun; cases hrun
    | some s1 =>
      simp only [hpv, Option.some.injEq, Prod.mk.injEq] at hrun ⊢
      obtain ⟨ht, he, hc⟩ := hrun
      subst ht
      exact ⟨he.symm, hc.symm, fun sink2 => ⟨rfl, rfl, hc⟩⟩

/-- Witness for C9: a failing sink on a boolean render; the returned
error is the sink's, and every other sink yields the same text and
configuration. -/
theorem C9_witness :
    ((some "boom" : Option String) = (fun _ : String => some "boom") "true\n") ∧
    (reset cZeroSep = reset cZeroSep) ∧
    (∀ sink2 : String → Option String,
      PrintTo 16 [] cZeroSep [] (.vBool true) sink2
        = some ("true\n", sink2 "true\n", reset cZeroSep)) :=
  C9_render_before_single_write 16 [] cZeroSep [] (.vBool true)
    (fun _ => some "boom") "true\n" (some "boom") (reset cZeroSep) (by decide)

/-- Claim C10: printing the nil interface never panics: the pre-pass is
skipped (the pointers table is left untouched), the classifier falls
through to printUnknownValue, which special-cases the kind-zero value,
and the rendered text is exactly nil. -/
theorem C10_nil_value_renders_nil (pts : PtrMap) (sink : String → Option String) :
    resetPointers 16 [] .vInvalid pts = some pts ∧
    printUnknownValue ⟨[], 0, false, pts⟩ .vInvalid = ⟨"nil".data, 0, false, pts⟩ ∧
    PrintTo 16 [] cZeroSep pts .vInvalid sink = some ("nil\n", sink "nil\n", reset cZeroSep) :=
  ⟨rfl, rfl, rfl⟩

end GoPP
